import Mathlib

/-!
Verification model of the pytupli benchmark/episode store.

The repository's `pytupli` package (schema, server, client) is embedded
shallowly: its data model becomes Lean structures, its operations become
pure functions from a server state to a result and a new state.  The
embedding is written from the natural-language specification of the
repository together with the repository's test suites, which pin the
observable behavior of the HTTP API; each definition's doc comment names
the operation it models.  All definitions are executable, so every
theorem can be checked on concrete inputs.
-/

namespace PyTupli

/-! ### SHA-256

Artifacts are content-addressed: the artifact id is the SHA-256 hex
digest of the uploaded bytes.  The hash itself is computed by the
standard library of the source language; it is reproduced here
bit-for-bit (FIPS 180-4) so that content addressing is checkable.
Words are plain naturals reduced modulo 2^32; a byte is a natural < 256.
-/

def M32 : Nat := 4294967296

def add32 (a b : Nat) : Nat := (a + b) % M32

def rotr32 (n x : Nat) : Nat := (x >>> n) ||| ((x <<< (32 - n)) % M32)

def notWord (x : Nat) : Nat := x ^^^ 4294967295

def ch32 (x y z : Nat) : Nat := (x &&& y) ^^^ (notWord x &&& z)

def maj32 (x y z : Nat) : Nat := (x &&& y) ^^^ (x &&& z) ^^^ (y &&& z)

def bigSigma0 (x : Nat) : Nat := rotr32 2 x ^^^ rotr32 13 x ^^^ rotr32 22 x

def bigSigma1 (x : Nat) : Nat := rotr32 6 x ^^^ rotr32 11 x ^^^ rotr32 25 x

def smallSigma0 (x : Nat) : Nat := rotr32 7 x ^^^ rotr32 18 x ^^^ (x >>> 3)

def smallSigma1 (x : Nat) : Nat := rotr32 17 x ^^^ rotr32 19 x ^^^ (x >>> 10)

def sha256K : List Nat :=
  [1116352408, 1899447441, 3049323471, 3921009573, 961987163, 1508970993,
   2453635748, 2870763221, 3624381080, 310598401, 607225278, 1426881987,
   1925078388, 2162078206, 2614888103, 3248222580, 3835390401, 4022224774,
   264347078, 604807628, 770255983, 1249150122, 1555081692, 1996064986,
   2554220882, 2821834349, 2952996808, 3210313671, 3336571891, 3584528711,
   113926993, 338241895, 666307205, 773529912, 1294757372, 1396182291,
   1695183700, 1986661051, 2177026350, 2456956037, 2730485921, 2820302411,
   3259730800, 3345764771, 3516065817, 3600352804, 4094571909, 275423344,
   430227734, 506948616, 659060556, 883997877, 958139571, 1322822218,
   1537002063, 1747873779, 1955562222, 2024104815, 2227730452, 2361852424,
   2428436474, 2756734187, 3204031479, 3329325298]

def sha256H0 : List Nat :=
  [1779033703, 3144134277, 1013904242, 2773480762, 1359893119, 2600822924,
   528734635, 1541459225]

/-- Big-endian byte encoding of `v` on `n` bytes. -/
def beBytes (n v : Nat) : List Nat :=
  (List.range n).map (fun i => (v >>> (8 * (n - 1 - i))) % 256)

/-- FIPS 180-4 padding: append 0x80, zeros, and the 64-bit message bit length. -/
def padMessage (msg : List Nat) : List Nat :=
  let L := msg.length
  let zeros := (64 - ((L + 9) % 64)) % 64
  msg ++ (0x80 :: List.replicate zeros 0) ++ beBytes 8 (8 * L)

/-- Big-endian 32-bit word from a list of bytes. -/
def bytesToWord (bs : List Nat) : Nat := bs.foldl (fun acc b => acc * 256 + b) 0

/-- The sixteen 32-bit words of one 64-byte block. -/
def blockWords (block : List Nat) : List Nat :=
  (List.range 16).map (fun i => bytesToWord ((block.drop (4 * i)).take 4))

/-- Message-schedule extension from 16 words to 64 words. -/
def extendSchedule (w16 : List Nat) : List Nat :=
  (List.range 48).foldl
    (fun w _ =>
      let t := w.length
      w ++ [add32 (add32 (smallSigma1 (w.getD (t - 2) 0)) (w.getD (t - 7) 0))
              (add32 (smallSigma0 (w.getD (t - 15) 0)) (w.getD (t - 16) 0))])
    w16

/-- One round of the SHA-256 compression function on the 8-word working state. -/
def sha256Round (w : List Nat) (st : List Nat) (i : Nat) : List Nat :=
  match st with
  | [a, b, c, d, e, f, g, h] =>
    let t1 := add32 h (add32 (bigSigma1 e) (add32 (ch32 e f g)
                (add32 (sha256K.getD i 0) (w.getD i 0))))
    let t2 := add32 (bigSigma0 a) (maj32 a b c)
    [add32 t1 t2, a, b, c, add32 d t1, e, f, g]
  | _ => st

/-- Compress one 64-byte block into the running hash value. -/
def compressBlock (h : List Nat) (block : List Nat) : List Nat :=
  let w := extendSchedule (blockWords block)
  let fin := (List.range 64).foldl (sha256Round w) h
  (h.zip fin).map (fun p => add32 p.1 p.2)

/-- Split into 64-byte blocks; fuel-based so that it evaluates in the kernel. -/
def chunks64Aux : Nat → List Nat → List (List Nat)
  | 0, _ => []
  | _, [] => []
  | fuel + 1, l => l.take 64 :: chunks64Aux fuel (l.drop 64)

def chunks64 (l : List Nat) : List (List Nat) := chunks64Aux l.length l

/-- SHA-256 digest (32 bytes) of a byte list. -/
def sha256 (msg : List Nat) : List Nat :=
  let h := (chunks64 (padMessage msg)).foldl compressBlock sha256H0
  h.foldr (fun w acc => beBytes 4 w ++ acc) []

def hexChar (n : Nat) : Char :=
  if n < 10 then Char.ofNat (48 + n) else Char.ofNat (87 + n)

/-- Lowercase hex string of a digest, as produced by hexdigest in the source. -/
def sha256hex (msg : List Nat) : String :=
  String.mk ((sha256 msg).foldr (fun b acc => hexChar (b / 16) :: hexChar (b % 16) :: acc) [])

/-! ### Data model

Modelled from the spec: the entities of §3 (`User`, `Membership`,
`UserRole`, `Group`, `Benchmark`, `Artifact`, `Episode` and its header)
as declared in `pytupli.schema`, which is not part of the source tree;
field names follow the schema names used by the repository's tests.
Opaque JSON payloads (tuple `state`, `action`, `info`, episode
`metadata`, benchmark `serialized`) are carried as opaque strings or
integers: the store never introspects them.
-/

/-- Closed enumeration of rights, as listed in §4.3 of the spec. -/
inductive RIGHT where
  | ARTIFACT_READ | ARTIFACT_CREATE | ARTIFACT_DELETE
  | BENCHMARK_READ | BENCHMARK_CREATE | BENCHMARK_DELETE
  | EPISODE_READ | EPISODE_CREATE | EPISODE_DELETE
  | USER_READ | USER_CREATE | USER_DELETE | USER_UPDATE
  | ROLE_READ | ROLE_CREATE | ROLE_DELETE
  | GROUP_READ | GROUP_CREATE | GROUP_DELETE | GROUP_UPDATE
  deriving DecidableEq, Repr

def ALL_RIGHTS : List RIGHT :=
  [.ARTIFACT_READ, .ARTIFACT_CREATE, .ARTIFACT_DELETE,
   .BENCHMARK_READ, .BENCHMARK_CREATE, .BENCHMARK_DELETE,
   .EPISODE_READ, .EPISODE_CREATE, .EPISODE_DELETE,
   .USER_READ, .USER_CREATE, .USER_DELETE, .USER_UPDATE,
   .ROLE_READ, .ROLE_CREATE, .ROLE_DELETE,
   .GROUP_READ, .GROUP_CREATE, .GROUP_DELETE, .GROUP_UPDATE]

/-- A user's set of roles within one group. -/
structure Membership where
  group : String
  roles : List String
  deriving DecidableEq, Repr

structure User where
  username : String
  password_hash : String
  memberships : List Membership
  deriving DecidableEq, Repr

/-- Role row: a named capability set. -/
structure UserRole where
  role : String
  description : String
  rights : List RIGHT
  deriving DecidableEq, Repr

/-- Group row: a named publication scope. -/
structure Group where
  name : String
  description : String
  created_by : String
  deriving DecidableEq, Repr

structure BenchmarkMetadata where
  name : String
  description : String
  deriving DecidableEq, Repr

structure Benchmark where
  id : String
  hash : String
  created_by : String
  metadata : BenchmarkMetadata
  serialized : String
  published_in : List String
  deriving DecidableEq, Repr

/-- Creation payload for a benchmark; the hash is caller-supplied. -/
structure BenchmarkQuery where
  hash : String
  metadata : BenchmarkMetadata
  serialized : String
  deriving DecidableEq, Repr

structure BenchmarkHeader where
  id : String
  hash : String
  created_by : String
  metadata : BenchmarkMetadata
  published_in : List String
  deriving DecidableEq, Repr

structure Artifact where
  id : String
  hash : String
  created_by : String
  name : String
  published_in : List String
  blob : List Nat
  deriving DecidableEq, Repr

/-- Metadata view of an artifact, as returned by upload and download. -/
structure ArtifactMetadataItem where
  id : String
  hash : String
  created_by : String
  name : String
  published_in : List String
  deriving DecidableEq, Repr

/-- One environment step. -/
structure RLTuple where
  state : String
  action : Int
  reward : Int
  info : String
  terminal : Bool
  timeout : Bool
  deriving DecidableEq, Repr

/-- Episode as submitted to record. -/
structure Episode where
  benchmark_id : String
  metadata : String
  tuples : List RLTuple
  deriving DecidableEq, Repr

structure EpisodeHeader where
  id : String
  benchmark_id : String
  created_by : String
  metadata : String
  published_in : List String
  n_tuples : Nat
  terminated : Bool
  timeout : Bool
  deriving DecidableEq, Repr

/-- Stored episode: header fields plus the ordered tuple list. -/
structure EpisodeItem where
  id : String
  benchmark_id : String
  created_by : String
  metadata : String
  published_in : List String
  n_tuples : Nat
  terminated : Bool
  timeout : Bool
  tuples : List RLTuple
  deriving DecidableEq, Repr

def EpisodeItem.toHeader (e : EpisodeItem) : EpisodeHeader :=
  { id := e.id, benchmark_id := e.benchmark_id, created_by := e.created_by,
    metadata := e.metadata, published_in := e.published_in,
    n_tuples := e.n_tuples, terminated := e.terminated, timeout := e.timeout }

/-- The persistent state of the server: per-kind collections (§6). -/
structure ServerState where
  users : List User
  roles : List UserRole
  groups : List Group
  benchmarks : List Benchmark
  artifacts : List Artifact
  episodes : List EpisodeItem
  deriving DecidableEq, Repr

/-- Error taxonomy of §7; the HTTP surface converts kinds to status codes. -/
inductive ApiError where
  | unauthorized
  | forbidden
  | notFound
  | conflict
  | validationFailure
  deriving DecidableEq, Repr

def httpStatus : ApiError → Nat
  | .unauthorized => 401
  | .forbidden => 403
  | .notFound => 404
  | .conflict => 409
  | .validationFailure => 422

/-- HTTP status of an operation result: 200 on success. -/
def statusOf {α : Type} : Except ApiError α → Nat
  | .ok _ => 200
  | .error e => httpStatus e

/-! ### Rights evaluator

Modelled from the spec: the decision procedure of §4.3.  A caller's
rights within a group are the union of the rights of the roles they
hold there; every user is implicitly a member of `global` with the
built-in `guest` role; a role in `global` granting every right is an
unconditional grant; otherwise an action on a resource is allowed
through the ownership path (the right held in the caller's personal
group) or through any publication scope the caller is a member of.
-/

def findUser (s : ServerState) (name : String) : Option User :=
  s.users.find? (fun u => u.username == name)

def findRole (s : ServerState) (name : String) : Option UserRole :=
  s.roles.find? (fun r => r.role == name)

def rightsOfRole (s : ServerState) (name : String) : List RIGHT :=
  (findRole s name).elim [] (fun r => r.rights)

/-- Names of the roles a user holds in group `g`, including the implicit
global guest role. -/
def rolesInGroup (u : User) (g : String) : List String :=
  (u.memberships.filter (fun m => m.group == g)).foldr (fun m acc => m.roles ++ acc)
    (if g == "global" then ["guest"] else [])

def hasRightInGroup (s : ServerState) (u : User) (g : String) (x : RIGHT) : Bool :=
  (rolesInGroup u g).any (fun r => (rightsOfRole s r).contains x)

/-- Holding a role in `global` whose rights cover the whole enumeration is
an unconditional grant (§4.3 step 5). -/
def isGlobalAdmin (s : ServerState) (u : User) : Bool :=
  (rolesInGroup u "global").any (fun r => ALL_RIGHTS.all (fun x => (rightsOfRole s r).contains x))

def memberGroups (u : User) : List String :=
  u.memberships.map (fun m => m.group) ++ ["global"]

/-- Decision procedure for a resource-scoped action (§4.3 step 3). -/
def hasRightOn (s : ServerState) (caller : User) (x : RIGHT)
    (created_by : String) (published_in : List String) : Bool :=
  isGlobalAdmin s caller ||
  (caller.username == created_by && hasRightInGroup s caller caller.username x) ||
  published_in.any (fun g => (memberGroups caller).contains g && hasRightInGroup s caller g x)

/-- Rights check for identity-store actions and for creation, which have no
target resource: the right must be held in the caller's personal group or
globally. -/
def hasGlobalRight (s : ServerState) (caller : User) (x : RIGHT) : Bool :=
  isGlobalAdmin s caller || hasRightInGroup s caller "global" x

def hasCreateRight (s : ServerState) (caller : User) (x : RIGHT) : Bool :=
  isGlobalAdmin s caller || hasRightInGroup s caller caller.username x ||
  hasRightInGroup s caller "global" x

/-- The caller used for requests that carry no usable credential. -/
def guestUser : User := { username := "", password_hash := "", memberships := [] }

/-- Built-in roles provisioned on first boot (§4.1). -/
def builtinRoles : List UserRole :=
  [{ role := "admin", description := "all rights", rights := ALL_RIGHTS },
   { role := "content_admin", description := "create and delete on all resource kinds",
     rights := [.ARTIFACT_READ, .ARTIFACT_CREATE, .ARTIFACT_DELETE,
                .BENCHMARK_READ, .BENCHMARK_CREATE, .BENCHMARK_DELETE,
                .EPISODE_READ, .EPISODE_CREATE, .EPISODE_DELETE] },
   { role := "contributor", description := "create-only",
     rights := [.ARTIFACT_READ, .ARTIFACT_CREATE,
                .BENCHMARK_READ, .BENCHMARK_CREATE,
                .EPISODE_READ, .EPISODE_CREATE] },
   { role := "guest", description := "read-only",
     rights := [.ARTIFACT_READ, .BENCHMARK_READ, .EPISODE_READ] }]

/-! ### Identity store -/

/-- User as serialized in responses: no password and no password hash field. -/
structure UserOut where
  username : String
  memberships : List Membership
  deriving DecidableEq, Repr

def toUserOut (u : User) : UserOut :=
  { username := u.username, memberships := u.memberships }

/-- Modelled from the spec: `create_user` of the identity store (§4.1),
whose implementation is not in the source tree.  Fails with `conflict`
when the username exists; on success creates the personal group and
grants the built-in `guest` role globally plus an admin-equivalent role
within the personal group.  Returns the created user without any
password field, as pinned by `test_user_creation_success`. -/
def create_user (s : ServerState) (caller : User) (username password_hash : String) :
    Except ApiError (UserOut × ServerState) :=
  if !hasGlobalRight s caller .USER_CREATE then .error .forbidden
  else if (findUser s username).isSome then .error .conflict
  else
    let u : User :=
      { username := username, password_hash := password_hash,
        memberships := [{ group := username, roles := ["admin"] },
                        { group := "global", roles := ["guest"] }] }
    let g : Group := { name := username, description := "personal group", created_by := username }
    .ok (toUserOut u, { s with users := s.users ++ [u], groups := s.groups ++ [g] })

/-- Modelled from the spec: `list_users` (§4.1); admin-gated, returns the
users without password fields (`test_user_listing_success`). -/
def list_users (s : ServerState) (caller : User) : Except ApiError (List UserOut) :=
  if hasGlobalRight s caller .USER_READ then .ok (s.users.map toUserOut)
  else .error .forbidden

/-- True when a publication set is empty or names only the owner's personal group. -/
def privateOnly (owner : String) (published_in : List String) : Bool :=
  published_in.all (fun g => g == owner)

/-- Modelled from the spec: `delete_user` (§3, §4.1), absent from the
source tree.  Idempotent (missing user is a success); cascades: every
benchmark, artifact and episode created by the user whose publication
set is empty or names only the personal group is deleted, along with
the user row and the personal group; publicly published resources
survive, still attributed to the deleted username. -/
def delete_user (s : ServerState) (caller : User) (username : String) : Nat × ServerState :=
  if !hasGlobalRight s caller .USER_DELETE then (403, s)
  else
    (200,
      { s with
        users := s.users.filter (fun u => u.username != username),
        groups := s.groups.filter (fun g => g.name != username),
        benchmarks := s.benchmarks.filter
          (fun b => !(b.created_by == username && privateOnly username b.published_in)),
        artifacts := s.artifacts.filter
          (fun a => !(a.created_by == username && privateOnly username a.published_in)),
        episodes := s.episodes.filter
          (fun e => !(e.created_by == username && privateOnly username e.published_in)) })

/-- Modelled from the spec: `delete_role` (§4.1).  The spec lists the
operation without a contract; the cascade into memberships is pinned by
the repository test `test_delete_role_removes_from_user`, and
idempotency on a missing role by `test_delete_role_not_found`. -/
def delete_role (s : ServerState) (caller : User) (name : String) : Nat × ServerState :=
  if !hasGlobalRight s caller .ROLE_DELETE then (403, s)
  else
    (200,
      { s with
        roles := s.roles.filter (fun r => r.role != name),
        users := s.users.map (fun u =>
          { u with memberships := u.memberships.map (fun m =>
              { m with roles := m.roles.filter (fun r => r != name) }) }) })

/-- Modelled from the spec: `delete_group` (§4.1), absent from the source
tree.  Removes the group from every user's memberships and from every
resource's publication set; idempotent on a missing group. -/
def delete_group (s : ServerState) (caller : User) (name : String) : Nat × ServerState :=
  if !hasGlobalRight s caller .GROUP_DELETE then (403, s)
  else
    (200,
      { s with
        groups := s.groups.filter (fun g => g.name != name),
        users := s.users.map (fun u =>
          { u with memberships := u.memberships.filter (fun m => m.group != name) }),
        benchmarks := s.benchmarks.map (fun b =>
          { b with published_in := b.published_in.filter (fun g => g != name) }),
        artifacts := s.artifacts.map (fun a =>
          { a with published_in := a.published_in.filter (fun g => g != name) }),
        episodes := s.episodes.map (fun e =>
          { e with published_in := e.published_in.filter (fun g => g != name) }) })

/-- Modelled from the spec: the group-list operation.  The spec's §4.1
says it returns every group with a membership plus `global`; the
repository's tests pin a narrower behavior, which this model follows:
`test_list_groups_standard_user_empty` requires a fresh standard user
(whose only memberships are the personal group and `global`) to receive
an empty list, while `test_list_groups_standard_user_with_membership`
and `test_list_groups_admin` require a group to appear once the caller
holds an explicit membership in it.  Hence the personal group and
`global` are excluded. -/
def list_groups (s : ServerState) (caller : User) : List Group :=
  s.groups.filter (fun g =>
    (caller.memberships.map (fun m => m.group)).contains g.name &&
    g.name != caller.username && g.name != "global")

/-! ### Resource store -/

def Benchmark.toHeader (b : Benchmark) : BenchmarkHeader :=
  { id := b.id, hash := b.hash, created_by := b.created_by,
    metadata := b.metadata, published_in := b.published_in }

/-- Modelled from the spec: `load_benchmark` (§4.5): `not_found` for an
unknown id, `forbidden` when the caller lacks BENCHMARK_READ on it. -/
def load_benchmark (s : ServerState) (caller : User) (id : String) :
    Except ApiError Benchmark :=
  match s.benchmarks.find? (fun b => b.id == id) with
  | none => .error .notFound
  | some b =>
    if hasRightOn s caller .BENCHMARK_READ b.created_by b.published_in
    then .ok b else .error .forbidden

/-- A benchmark with the given hash exists within the caller's visibility
(ownership or a readable publication scope). -/
def visible_benchmark_with_hash (s : ServerState) (caller : User) (h : String) : Bool :=
  s.benchmarks.any (fun b =>
    b.hash == h && hasRightOn s caller .BENCHMARK_READ b.created_by b.published_in)

/-- Modelled from the spec: `create_benchmark` (§4.5), absent from the
source tree.  Dedup by hash within the caller's visibility: conflict
when any visible benchmark (the caller's own, or another caller's
published one) already carries the hash; on success the benchmark is
published in the creator's personal group.  The server-generated id is
passed as an argument. -/
def create_benchmark (s : ServerState) (caller : User) (q : BenchmarkQuery) (newId : String) :
    Except ApiError (BenchmarkHeader × ServerState) :=
  if !hasCreateRight s caller .BENCHMARK_CREATE then .error .forbidden
  else if visible_benchmark_with_hash s caller q.hash then .error .conflict
  else
    let b : Benchmark :=
      { id := newId, hash := q.hash, created_by := caller.username,
        metadata := q.metadata, serialized := q.serialized,
        published_in := [caller.username] }
    .ok (b.toHeader, { s with benchmarks := b :: s.benchmarks })

/-- Modelled from the spec: `delete_benchmark` (§4.5): idempotent on a
missing id, cascades to the benchmark's episodes. -/
def delete_benchmark (s : ServerState) (caller : User) (id : String) : Nat × ServerState :=
  match s.benchmarks.find? (fun b => b.id == id) with
  | none => (200, s)
  | some b =>
    if hasRightOn s caller .BENCHMARK_DELETE b.created_by b.published_in then
      (200, { s with
              benchmarks := s.benchmarks.filter (fun b2 => b2.id != id),
              episodes := s.episodes.filter (fun e => e.benchmark_id != id) })
    else (403, s)

def Artifact.toItem (a : Artifact) : ArtifactMetadataItem :=
  { id := a.id, hash := a.hash, created_by := a.created_by,
    name := a.name, published_in := a.published_in }

/-- Modelled from the spec: `store_artifact` (§4.5), absent from the
source tree.  Content-addressed: id and hash are the SHA-256 hex digest
of the bytes; a repeated store of identical bytes is an idempotent
success (`test_artifact_duplicate_upload`), answering with the already
stored artifact's metadata. -/
def store_artifact (s : ServerState) (caller : User) (blob : List Nat) (name : String) :
    Except ApiError (ArtifactMetadataItem × ServerState) :=
  if !hasCreateRight s caller .ARTIFACT_CREATE then .error .forbidden
  else
    let digest := sha256hex blob
    match s.artifacts.find? (fun a => a.id == digest) with
    | some a => .ok (a.toItem, s)
    | none =>
      let a : Artifact :=
        { id := digest, hash := digest, created_by := caller.username,
          name := name, published_in := [caller.username], blob := blob }
      .ok (a.toItem, { s with artifacts := a :: s.artifacts })

/-- Modelled from the spec: `load_artifact` (§4.5). -/
def load_artifact (s : ServerState) (caller : User) (id : String) :
    Except ApiError (List Nat × ArtifactMetadataItem) :=
  match s.artifacts.find? (fun a => a.id == id) with
  | none => .error .notFound
  | some a =>
    if hasRightOn s caller .ARTIFACT_READ a.created_by a.published_in
    then .ok (a.blob, a.toItem) else .error .forbidden

/-- Modelled from the spec: `delete_artifact` (§4.5): idempotent on a
missing id (`test_delete_itempotency`). -/
def delete_artifact (s : ServerState) (caller : User) (id : String) : Nat × ServerState :=
  match s.artifacts.find? (fun a => a.id == id) with
  | none => (200, s)
  | some a =>
    if hasRightOn s caller .ARTIFACT_DELETE a.created_by a.published_in then
      (200, { s with artifacts := s.artifacts.filter (fun a2 => a2.id != id) })
    else (403, s)

/-- Modelled from the spec: `record_episode` (§4.5), absent from the
source tree.  Validates that the benchmark exists (`not_found`
otherwise), that the caller holds EPISODE_CREATE (the tests reject a
guest with `forbidden`) and BENCHMARK_READ on the parent benchmark;
derives `n_tuples`, `terminated` and `timeout` from the tuple list,
whose order is preserved.  An empty tuple list has no last element to
derive from and is modelled as a validation failure.  The
server-generated id is passed as an argument. -/
def record_episode (s : ServerState) (caller : User) (e : Episode) (newId : String) :
    Except ApiError (EpisodeHeader × ServerState) :=
  match s.benchmarks.find? (fun b => b.id == e.benchmark_id) with
  | none => .error .notFound
  | some b =>
    if !hasCreateRight s caller .EPISODE_CREATE then .error .forbidden
    else if !hasRightOn s caller .BENCHMARK_READ b.created_by b.published_in then
      .error .forbidden
    else
      match e.tuples.getLast? with
      | none => .error .validationFailure
      | some last =>
        let item : EpisodeItem :=
          { id := newId, benchmark_id := e.benchmark_id, created_by := caller.username,
            metadata := e.metadata, published_in := [caller.username],
            n_tuples := e.tuples.length, terminated := last.terminal,
            timeout := last.timeout, tuples := e.tuples }
        .ok (item.toHeader, { s with episodes := item :: s.episodes })

/-- Modelled from the spec: `delete_episode` (§4.5): idempotent on a
missing id. -/
def delete_episode (s : ServerState) (caller : User) (id : String) : Nat × ServerState :=
  match s.episodes.find? (fun e => e.id == id) with
  | none => (200, s)
  | some e =>
    if hasRightOn s caller .EPISODE_DELETE e.created_by e.published_in then
      (200, { s with episodes := s.episodes.filter (fun e2 => e2.id != id) })
    else (403, s)

/-! ### Filter engine

Modelled from the spec: the filter algebra of §4.4 and the reference
translation table for document databases, corresponding to
`MongoDBHandler.convert_filter_to_query`, whose implementation is not in
the source tree; its exact input/output pairs are pinned by
`test_convert_filter_to_query` and `test_complex_filter_chain`.
-/

/-- JSON scalar filter values.  The tests use strings and numbers; the
translation copies values opaquely. -/
inductive JsonScalar where
  | str (s : String)
  | int (n : Int)
  deriving DecidableEq, Repr

/-- Discriminated filter tree (the spec's EQ/GEQ/LEQ leaves and AND/OR
branches; the translation table covers exactly these five node kinds). -/
inductive Filter where
  | EQ (key : String) (value : JsonScalar)
  | GEQ (key : String) (value : JsonScalar)
  | LEQ (key : String) (value : JsonScalar)
  | AND (filters : List Filter)
  | OR (filters : List Filter)
  deriving Repr

/-- Native document-database query form: a JSON-like tree of objects,
arrays and scalars. -/
inductive MongoQuery where
  | scalar (v : JsonScalar)
  | obj (fields : List (String × MongoQuery))
  | arr (elems : List MongoQuery)
  deriving Repr

mutual

/-- Modelled from the spec: the reference translation of §4.4. -/
def convert_filter_to_query : Filter → MongoQuery
  | .EQ k v => .obj [(k, .scalar v)]
  | .GEQ k v => .obj [(k, .obj [("$gte", .scalar v)])]
  | .LEQ k v => .obj [(k, .obj [("$lte", .scalar v)])]
  | .AND fs => .obj [("$and", .arr (convertFilterList fs))]
  | .OR fs => .obj [("$or", .arr (convertFilterList fs))]

def convertFilterList : List Filter → List MongoQuery
  | [] => []
  | f :: fs => convert_filter_to_query f :: convertFilterList fs

end

/-! ### HTTP surface: bearer authentication

Modelled from the spec (§6, §7) and the repository's test suites.  The
two suites pin different treatments of a request without a usable
credential: the older authentication suite expects 401 from the
artifacts router (`test_no_token`, `test_invalid_auth_type`), while the
newer suites expect 403 from the users, benchmarks and episodes routers
(`test_user_listing_no_auth`, `test_delete_benchmark_guest_forbidden`,
`test_episodes_record_guest_user`), where the request proceeds as an
unauthenticated guest and fails the rights check.  An endpoint policy
therefore records whether its router demands strict authentication.
A present-but-invalid bearer token is 401 everywhere.
-/

inductive AuthHeader where
  | missing
  | bearer (token : String)
  | otherScheme (scheme token : String)
  deriving DecidableEq, Repr

/-- What an endpoint checks rights against: the identity store, or a
target resource with its owner and publication scopes. -/
inductive TargetKind where
  | identity
  | resource (created_by : String) (published_in : List String)
  deriving DecidableEq, Repr

structure EndpointPolicy where
  strictAuth : Bool
  requiredRight : RIGHT
  target : TargetKind
  deriving Repr

def checkRights (pol : EndpointPolicy) (s : ServerState) (u : User) : Bool :=
  match pol.target with
  | .identity => hasGlobalRight s u pol.requiredRight
  | .resource cb pb => hasRightOn s u pol.requiredRight cb pb

/-- Dispatch of one request: `tokens` is the server's view of valid
access tokens (token ↦ subject username).  Returns the HTTP status
(200 when the request is allowed through to the operation). -/
def handle_request (s : ServerState) (tokens : List (String × String))
    (pol : EndpointPolicy) (hdr : AuthHeader) : Nat :=
  match hdr with
  | .bearer t =>
    match tokens.lookup t with
    | none => 401
    | some uname =>
      match findUser s uname with
      | none => 401
      | some u => if checkRights pol s u then 200 else 403
  | _ =>
    if pol.strictAuth then 401
    else if checkRights pol s guestUser then 200 else 403

/-- The user-list endpoint: guest fallback, admin-gated (newer suite). -/
def usersListEndpoint : EndpointPolicy :=
  { strictAuth := false, requiredRight := .USER_READ, target := .identity }

/-- The artifact-delete endpoint: strict authentication (older suite). -/
def artifactDeleteEndpoint (created_by : String) (published_in : List String) : EndpointPolicy :=
  { strictAuth := true, requiredRight := .ARTIFACT_DELETE,
    target := .resource created_by published_in }

/-- The benchmark-delete endpoint: guest fallback (newer suite). -/
def benchmarkDeleteEndpoint (created_by : String) (published_in : List String) : EndpointPolicy :=
  { strictAuth := false, requiredRight := .BENCHMARK_DELETE,
    target := .resource created_by published_in }

/-! ### Concrete fixtures

Closed states and payloads mirroring the repository's test fixtures
(`conftest.py`): an admin, two standard users, their personal groups,
and sample benchmarks, artifacts and episodes.  Used to evaluate every
theorem on concrete inputs.
-/

def adminUser : User :=
  { username := "admin", password_hash := "hash_admin",
    memberships := [{ group := "admin", roles := ["admin"] },
                    { group := "global", roles := ["admin"] }] }

def user1 : User :=
  { username := "test_user_1", password_hash := "hash_1",
    memberships := [{ group := "test_user_1", roles := ["admin"] },
                    { group := "global", roles := ["guest"] }] }

def user2 : User :=
  { username := "test_user_2", password_hash := "hash_2",
    memberships := [{ group := "test_user_2", roles := ["admin"] },
                    { group := "global", roles := ["guest"] }] }

def globalGroup : Group := { name := "global", description := "", created_by := "admin" }

def adminGroup : Group := { name := "admin", description := "personal group", created_by := "admin" }

def user1Group : Group :=
  { name := "test_user_1", description := "personal group", created_by := "test_user_1" }

def user2Group : Group :=
  { name := "test_user_2", description := "personal group", created_by := "test_user_2" }

def baseState : ServerState :=
  { users := [adminUser, user1, user2], roles := builtinRoles,
    groups := [globalGroup, adminGroup, user1Group, user2Group],
    benchmarks := [], artifacts := [], episodes := [] }

def sampleMetadata : BenchmarkMetadata := { name := "test", description := "test description" }

/-- Benchmark created and published globally by user 1. -/
def bmPublished : Benchmark :=
  { id := "b1", hash := "test_hash_published_user1", created_by := "test_user_1",
    metadata := sampleMetadata, serialized := "{}",
    published_in := ["test_user_1", "global"] }

/-- Benchmark created by user 1, never published beyond the personal group. -/
def bmPrivate : Benchmark :=
  { id := "b2", hash := "test_hash_created_user1", created_by := "test_user_1",
    metadata := sampleMetadata, serialized := "{}",
    published_in := ["test_user_1"] }

def artPublished : Artifact :=
  { id := "a1", hash := "a1", created_by := "test_user_1", name := "test_data.csv",
    published_in := ["test_user_1", "global"], blob := [116] }

def artPrivate : Artifact :=
  { id := "a2", hash := "a2", created_by := "test_user_1", name := "test_data.csv",
    published_in := ["test_user_1"], blob := [117] }

def epPublished : EpisodeItem :=
  { id := "e1", benchmark_id := "b1", created_by := "test_user_1", metadata := "agent",
    published_in := ["test_user_1", "global"], n_tuples := 1, terminated := true,
    timeout := false,
    tuples := [{ state := "s", action := 0, reward := 0, info := "", terminal := true,
                 timeout := false }] }

def epPrivate : EpisodeItem :=
  { id := "e2", benchmark_id := "b1", created_by := "test_user_1", metadata := "agent",
    published_in := ["test_user_1"], n_tuples := 1, terminated := false, timeout := true,
    tuples := [{ state := "s", action := 0, reward := 0, info := "", terminal := false,
                 timeout := true }] }

/-- Base state populated with user 1's resources. -/
def fullState : ServerState :=
  { baseState with
    benchmarks := [bmPublished, bmPrivate],
    artifacts := [artPublished, artPrivate],
    episodes := [epPublished, epPrivate] }

/-- The two-step episode of the `sample_episode` fixture: last tuple has
terminal = true, timeout = false. -/
def sampleEpisode : Episode :=
  { benchmark_id := "b1", metadata := "test_agent 1.0",
    tuples := [{ state := "p0 v0", action := 1, reward := 0, info := "", terminal := false,
                 timeout := false },
               { state := "p1 v1", action := 1, reward := 0, info := "", terminal := true,
                 timeout := false }] }

def c1Res : Except ApiError (EpisodeHeader × ServerState) :=
  record_episode fullState adminUser sampleEpisode "ep1"

def c1Header : EpisodeHeader :=
  match c1Res with
  | .ok (h, _) => h
  | .error _ =>
    { id := "", benchmark_id := "", created_by := "", metadata := "", published_in := [],
      n_tuples := 0, terminated := false, timeout := false }

def c1After : ServerState :=
  match c1Res with
  | .ok (_, s) => s
  | .error _ => fullState

/-- Creation payload carrying the hash of the globally published benchmark. -/
def qPublishedHash : BenchmarkQuery :=
  { hash := "test_hash_published_user1", metadata := sampleMetadata, serialized := "{}" }

/-- Creation payload carrying the hash of user 1's private benchmark. -/
def qPrivateHash : BenchmarkQuery :=
  { hash := "test_hash_created_user1", metadata := sampleMetadata, serialized := "{}" }

/-- Creation payload with a hash unseen in `fullState`. -/
def qFreshHash : BenchmarkQuery :=
  { hash := "fresh_hash", metadata := sampleMetadata, serialized := "{}" }

/-- State after the admin deletes user 1 (claim C4's cascade). -/
def c4After : ServerState := (delete_user fullState adminUser "test_user_1").2

/-- Access tokens the server considers valid, for the HTTP-surface model. -/
def sampleTokens : List (String × String) :=
  [("tok_admin", "admin"), ("tok_user1", "test_user_1")]

/-- State after the admin deletes the role held by user 1's global
membership (claim C9). -/
def c9State : ServerState :=
  { baseState with
    roles := builtinRoles ++
      [{ role := "test_role", description := "A test role", rights := [.ARTIFACT_READ] }],
    users := [adminUser,
      { username := "role_user", password_hash := "hash_r",
        memberships := [{ group := "role_user", roles := ["admin"] },
                        { group := "global", roles := ["guest", "test_role"] }] }] }

def c9After : ServerState := (delete_role c9State adminUser "test_role").2

def roleUserAfter : User :=
  { username := "role_user", password_hash := "hash_r",
    memberships := [{ group := "role_user", roles := ["admin"] },
                    { group := "global", roles := ["guest"] }] }

/-- Copy of `fullState` where user 1's stored password hash differs. -/
def fullStateAltPassword : ServerState :=
  { fullState with
    users := [adminUser,
      { user1 with password_hash := "a_different_hash" }, user2] }

def testGroup : Group :=
  { name := "test_group", description := "A test group", created_by := "admin" }

/-- User 1 after being added to the test group with the contributor role. -/
def user1WithGroup : User :=
  { user1 with
    memberships := user1.memberships ++ [{ group := "test_group", roles := ["contributor"] }] }

def c8GroupState : ServerState :=
  { baseState with groups := baseState.groups ++ [testGroup] }

end PyTupli

namespace PyTupli

set_option maxRecDepth 100000

/-- Sanity: the model reproduces the standard SHA-256 test vector for the empty message. -/
theorem sha256hex_empty_vector :
    sha256hex [] = "e3b0c44298fc1c149afbf4c8996fb92427ae41e4649b934ca495991b7852b855" := by
  decide

/-- Sanity: the model reproduces the standard SHA-256 test vector for "abc". -/
theorem sha256hex_abc_vector :
    sha256hex [97, 98, 99] = "ba7816bf8f01cfea414140de5dae2223b00361a396177a9cb410ff61f20015ad" := by
  decide

/-! ### Helper lemmas -/

/-- A find over a list returns the unique element satisfying the predicate. -/
theorem find_eq_some_of_unique {α : Type} (p : α → Bool) (l : List α) (b : α)
    (hmem : b ∈ l) (hp : p b = true) (huniq : ∀ x ∈ l, p x = true → x = b) :
    l.find? p = some b := by
  induction l with
  | nil => cases hmem
  | cons a l ih =>
    by_cases ha : p a = true
    · have hab : a = b := huniq a (List.mem_cons_self a l) ha
      rw [List.find?_cons_of_pos _ ha, hab]
    · rw [List.find?_cons_of_neg _ (by simp [ha])]
      rcases List.mem_cons.mp hmem with hba | hbl
      · exact absurd (hba ▸ hp) ha
      · exact ih hbl (fun x hx hpx => huniq x (List.mem_cons_of_mem a hx) hpx)

/-- The list translator agrees with mapping the node translator. -/
theorem convertFilterList_eq_map (fs : List Filter) :
    convertFilterList fs = fs.map convert_filter_to_query := by
  induction fs with
  | nil => rfl
  | cons f fs ih => simp [convertFilterList, ih]

/-- Identity-store rights evaluation reads only the role table, not the
collections a delete operation mutates. -/
theorem hasGlobalRight_of_roles_eq (s s' : ServerState) (c : User) (x : RIGHT)
    (h : s'.roles = s.roles) : hasGlobalRight s' c x = hasGlobalRight s c x := by
  simp only [hasGlobalRight, isGlobalAdmin, hasRightInGroup, rightsOfRole, findRole, h]

/-- Loading an id that no stored benchmark carries answers not_found. -/
theorem load_benchmark_eq_notFound (s : ServerState) (c : User) (id : String)
    (h : s.benchmarks.find? (fun b => b.id == id) = none) :
    load_benchmark s c id = .error .notFound := by
  unfold load_benchmark
  rw [h]

/-- Loading a stored benchmark with read rights answers it. -/
theorem load_benchmark_eq_ok (s : ServerState) (c : User) (id : String) (b : Benchmark)
    (hfind : s.benchmarks.find? (fun x => x.id == id) = some b)
    (hr : hasRightOn s c .BENCHMARK_READ b.created_by b.published_in = true) :
    load_benchmark s c id = .ok b := by
  unfold load_benchmark
  rw [hfind]
  exact if_pos hr

/-- Filtering out an id leaves no element to find under that id. -/
theorem find_id_filter_ne_none {α : Type} (idOf : α → String) (l : List α) (id : String) :
    (l.filter (fun x => idOf x != id)).find? (fun x => idOf x == id) = none := by
  rw [List.find?_eq_none]
  intro x hx
  have h2 : idOf x ≠ id := by simpa [bne_iff_ne] using (List.mem_filter.mp hx).2
  simp [beq_iff_eq, h2]

/-- Deleting an artifact id that is not stored is a 200 no-op. -/
theorem delete_artifact_missing (s : ServerState) (c : User) (id : String)
    (h : s.artifacts.find? (fun a => a.id == id) = none) :
    delete_artifact s c id = (200, s) := by
  unfold delete_artifact
  rw [h]

/-- Deleting a benchmark id that is not stored is a 200 no-op. -/
theorem delete_benchmark_missing (s : ServerState) (c : User) (id : String)
    (h : s.benchmarks.find? (fun b => b.id == id) = none) :
    delete_benchmark s c id = (200, s) := by
  unfold delete_benchmark
  rw [h]

/-- Deleting an episode id that is not stored is a 200 no-op. -/
theorem delete_episode_missing (s : ServerState) (c : User) (id : String)
    (h : s.episodes.find? (fun e => e.id == id) = none) :
    delete_episode s c id = (200, s) := by
  unfold delete_episode
  rw [h]

/-- Deleting a stored artifact reduces to the rights check. -/
theorem delete_artifact_found (s : ServerState) (c : User) (id : String) (a : Artifact)
    (hfind : s.artifacts.find? (fun x => x.id == id) = some a) :
    delete_artifact s c id =
      if hasRightOn s c .ARTIFACT_DELETE a.created_by a.published_in
      then (200, { s with artifacts := s.artifacts.filter (fun a2 => a2.id != id) })
      else (403, s) := by
  unfold delete_artifact
  rw [hfind]

/-- Deleting a stored benchmark reduces to the rights check. -/
theorem delete_benchmark_found (s : ServerState) (c : User) (id : String) (b : Benchmark)
    (hfind : s.benchmarks.find? (fun x => x.id == id) = some b) :
    delete_benchmark s c id =
      if hasRightOn s c .BENCHMARK_DELETE b.created_by b.published_in
      then (200, { s with
              benchmarks := s.benchmarks.filter (fun b2 => b2.id != id),
              episodes := s.episodes.filter (fun e => e.benchmark_id != id) })
      else (403, s) := by
  unfold delete_benchmark
  rw [hfind]

/-- Deleting a stored episode reduces to the rights check. -/
theorem delete_episode_found (s : ServerState) (c : User) (id : String) (e : EpisodeItem)
    (hfind : s.episodes.find? (fun x => x.id == id) = some e) :
    delete_episode s c id =
      if hasRightOn s c .EPISODE_DELETE e.created_by e.published_in
      then (200, { s with episodes := s.episodes.filter (fun e2 => e2.id != id) })
      else (403, s) := by
  unfold delete_episode
  rw [hfind]

/-- User deletion reports 200 whenever the caller holds the right. -/
theorem delete_user_status_of_auth (s : ServerState) (c : User) (n : String)
    (h : hasGlobalRight s c .USER_DELETE = true) : (delete_user s c n).1 = 200 := by
  unfold delete_user
  rw [if_neg (by simp [h])]

/-- Role deletion reports 200 whenever the caller holds the right. -/
theorem delete_role_status_of_auth (s : ServerState) (c : User) (n : String)
    (h : hasGlobalRight s c .ROLE_DELETE = true) : (delete_role s c n).1 = 200 := by
  unfold delete_role
  rw [if_neg (by simp [h])]

/-- Group deletion reports 200 whenever the caller holds the right. -/
theorem delete_group_status_of_auth (s : ServerState) (c : User) (n : String)
    (h : hasGlobalRight s c .GROUP_DELETE = true) : (delete_group s c n).1 = 200 := by
  unfold delete_group
  rw [if_neg (by simp [h])]

/-! ### Claim C7: filter-to-query translation -/

/-- C7: the filter-to-query translation is a structural homomorphism:
EQ(k,v) maps to `{k: v}`, GEQ(k,v) to `{k: {"$gte": v}}`, LEQ(k,v) to
`{k: {"$lte": v}}`, AND to `{"$and": [...]}` and OR to `{"$or": [...]}`
with the child filters translated by the same function, recursively at
every nesting depth. -/
theorem filter_translation_homomorphism :
    (∀ k v, convert_filter_to_query (.EQ k v) = .obj [(k, .scalar v)]) ∧
    (∀ k v, convert_filter_to_query (.GEQ k v) = .obj [(k, .obj [("$gte", .scalar v)])]) ∧
    (∀ k v, convert_filter_to_query (.LEQ k v) = .obj [(k, .obj [("$lte", .scalar v)])]) ∧
    (∀ fs, convert_filter_to_query (.AND fs) =
      .obj [("$and", .arr (fs.map convert_filter_to_query))]) ∧
    (∀ fs, convert_filter_to_query (.OR fs) =
      .obj [("$or", .arr (fs.map convert_filter_to_query))]) := by
  refine ⟨fun k v => rfl, fun k v => rfl, fun k v => rfl, fun fs => ?_, fun fs => ?_⟩ <;>
    simp only [convert_filter_to_query, convertFilterList_eq_map]

/-- Corroboration: the nested AND/OR example of `test_convert_filter_to_query`
translates to the query dict asserted by the test. -/
theorem convert_nested_filter_example :
    convert_filter_to_query
      (.AND [.EQ "state" (.str "active"),
             .OR [.GEQ "reward" (.int 5), .LEQ "time" (.int 100)]]) =
    .obj [("$and", .arr
      [.obj [("state", .scalar (.str "active"))],
       .obj [("$or", .arr
         [.obj [("reward", .obj [("$gte", .scalar (.int 5))])],
          .obj [("time", .obj [("$lte", .scalar (.int 100))])]])]])] := rfl

/-- Corroboration: the deeply nested chain of `test_complex_filter_chain`
translates to the query dict asserted by the test. -/
theorem convert_complex_filter_chain_example :
    convert_filter_to_query
      (.AND [.OR [.EQ "state" (.str "active"), .GEQ "score" (.int 90)],
             .AND [.EQ "validated" (.str "true"),
                   .OR [.LEQ "time" (.int 50), .GEQ "reward" (.int 7)]]]) =
    .obj [("$and", .arr
      [.obj [("$or", .arr
         [.obj [("state", .scalar (.str "active"))],
          .obj [("score", .obj [("$gte", .scalar (.int 90))])]])],
       .obj [("$and", .arr
         [.obj [("validated", .scalar (.str "true"))],
          .obj [("$or", .arr
            [.obj [("time", .obj [("$lte", .scalar (.int 50))])],
             .obj [("reward", .obj [("$gte", .scalar (.int 7))])]])]])]])] := rfl

/-! ### Claim C3: content-addressed, idempotent artifact storage -/

/-- C3: store_artifact is content-addressed and idempotent: for any byte
string, the stored artifact's id is the SHA-256 hex digest of the bytes,
and storing the identical bytes a second time succeeds with the same id
and an unchanged store, never a conflict error. -/
theorem store_artifact_content_addressed
    (s : ServerState) (caller : User) (blob : List Nat) (name : String)
    (hcr : hasCreateRight s caller .ARTIFACT_CREATE = true) :
    ∃ m s', store_artifact s caller blob name = .ok (m, s') ∧
      m.id = sha256hex blob ∧
      store_artifact s' caller blob name = .ok (m, s') := by
  cases hfind : s.artifacts.find? (fun a => a.id == sha256hex blob) with
  | some a =>
    refine ⟨a.toItem, s, ?_, ?_, ?_⟩
    · simp [store_artifact, hcr, hfind]
    · have := List.find?_some hfind
      simpa [Artifact.toItem] using this
    · simp [store_artifact, hcr, hfind]
  | none =>
    refine ⟨Artifact.toItem
        { id := sha256hex blob, hash := sha256hex blob, created_by := caller.username,
          name := name, published_in := [caller.username], blob := blob },
      { s with artifacts :=
          { id := sha256hex blob, hash := sha256hex blob, created_by := caller.username,
            name := name, published_in := [caller.username], blob := blob } :: s.artifacts },
      ?_, rfl, ?_⟩
    · simp [store_artifact, hcr, hfind]
    · have h2 : hasCreateRight
          { s with artifacts :=
              { id := sha256hex blob, hash := sha256hex blob, created_by := caller.username,
                name := name, published_in := [caller.username], blob := blob } :: s.artifacts }
          caller .ARTIFACT_CREATE = true := hcr
      simp [store_artifact, h2, List.find?_cons_of_pos _ (beq_self_eq_true _)]

/-- Witness for C3 at the concrete bytes [1, 2, 3] stored by user 1. -/
theorem store_artifact_content_addressed_witness :
    ∃ m s', store_artifact baseState user1 [1, 2, 3] "test_data.csv" = .ok (m, s') ∧
      m.id = sha256hex [1, 2, 3] ∧
      store_artifact s' user1 [1, 2, 3] "test_data.csv" = .ok (m, s') :=
  store_artifact_content_addressed baseState user1 [1, 2, 3] "test_data.csv" (by decide)

/-! ### Claim C1: episode header integrity -/

/-- C1: every episode accepted by record_episode with a non-empty tuple
list is stored (and its returned header reported) with n_tuples equal to
the number of tuples, terminated equal to the last tuple's terminal
flag, and timeout equal to the last tuple's timeout flag. -/
theorem record_episode_header_integrity
    (s : ServerState) (caller : User) (e : Episode) (newId : String)
    (h : EpisodeHeader) (s' : ServerState)
    (hok : record_episode s caller e newId = .ok (h, s')) :
    ∃ last, e.tuples.getLast? = some last ∧
      h.n_tuples = e.tuples.length ∧ h.terminated = last.terminal ∧
      h.timeout = last.timeout ∧
      ∃ item : EpisodeItem, s'.episodes = item :: s.episodes ∧ item.toHeader = h ∧
        item.tuples = e.tuples ∧ item.n_tuples = e.tuples.length ∧
        item.terminated = last.terminal ∧ item.timeout = last.timeout := by
  unfold record_episode at hok
  split at hok
  · cases hok
  · split at hok
    · cases hok
    · split at hok
      · cases hok
      · split at hok
        · cases hok
        · rename_i last hlast
          rw [Except.ok.injEq, Prod.mk.injEq] at hok
          obtain ⟨hh, hs⟩ := hok
          refine ⟨last, hlast, ?_, ?_, ?_, ?_⟩
          · rw [← hh]; rfl
          · rw [← hh]; rfl
          · rw [← hh]; rfl
          · exact ⟨_, by rw [← hs], hh, rfl, rfl, rfl, rfl⟩

/-- Witness for C1: the admin records the two-tuple sample episode
(last tuple: terminal = true, timeout = false) against the published
benchmark of `fullState`. -/
theorem record_episode_header_integrity_witness :
    ∃ last, sampleEpisode.tuples.getLast? = some last ∧
      c1Header.n_tuples = sampleEpisode.tuples.length ∧
      c1Header.terminated = last.terminal ∧
      c1Header.timeout = last.timeout ∧
      ∃ item : EpisodeItem, c1After.episodes = item :: fullState.episodes ∧
        item.toHeader = c1Header ∧ item.tuples = sampleEpisode.tuples ∧
        item.n_tuples = sampleEpisode.tuples.length ∧
        item.terminated = last.terminal ∧ item.timeout = last.timeout :=
  record_episode_header_integrity fullState adminUser sampleEpisode "ep1" c1Header c1After
    (by rfl)

/-! ### Claim C2: benchmark hash deduplication -/

/-- C2: for every caller holding benchmark-creation rights,
create_benchmark fails with a 409 conflict exactly when a benchmark with
the same hash is already visible to that caller — which covers both
another user's publicly published benchmark and the caller's own earlier
benchmark; otherwise creation succeeds. -/
theorem create_benchmark_hash_conflict
    (s : ServerState) (caller : User) (q : BenchmarkQuery) (newId : String)
    (hcr : hasCreateRight s caller .BENCHMARK_CREATE = true) :
    (create_benchmark s caller q newId = .error .conflict ↔
      ∃ b ∈ s.benchmarks, b.hash = q.hash ∧
        hasRightOn s caller .BENCHMARK_READ b.created_by b.published_in = true) ∧
    httpStatus .conflict = 409 ∧
    ((¬ ∃ b ∈ s.benchmarks, b.hash = q.hash ∧
        hasRightOn s caller .BENCHMARK_READ b.created_by b.published_in = true) →
      ∃ hd s', create_benchmark s caller q newId = .ok (hd, s')) := by
  have hvis : visible_benchmark_with_hash s caller q.hash = true ↔
      ∃ b ∈ s.benchmarks, b.hash = q.hash ∧
        hasRightOn s caller .BENCHMARK_READ b.created_by b.published_in = true := by
    simp [visible_benchmark_with_hash, List.any_eq_true, Bool.and_eq_true, beq_iff_eq]
  refine ⟨⟨?_, ?_⟩, rfl, ?_⟩
  · intro hc
    cases hv : visible_benchmark_with_hash s caller q.hash with
    | true => exact hvis.mp hv
    | false => simp [create_benchmark, hcr, hv] at hc
  · intro hex
    simp [create_benchmark, hcr, hvis.mpr hex]
  · intro hnex
    cases hv : visible_benchmark_with_hash s caller q.hash with
    | true => exact absurd (hvis.mp hv) hnex
    | false =>
      refine ⟨Benchmark.toHeader
          { id := newId, hash := q.hash, created_by := caller.username,
            metadata := q.metadata, serialized := q.serialized,
            published_in := [caller.username] },
        { s with benchmarks :=
            { id := newId, hash := q.hash, created_by := caller.username,
              metadata := q.metadata, serialized := q.serialized,
              published_in := [caller.username] } :: s.benchmarks }, ?_⟩
      simp [create_benchmark, hcr, hv]

/-- Witness for C2: in the populated state, user 2 collides with user 1's
globally published hash, user 1 collides with their own private hash, and
a fresh hash is accepted. -/
theorem create_benchmark_hash_conflict_witness :
    create_benchmark fullState user2 qPublishedHash "bNew" = .error .conflict ∧
    create_benchmark fullState user1 qPrivateHash "bNew" = .error .conflict ∧
    ∃ hd s', create_benchmark fullState user1 qFreshHash "bNew" = .ok (hd, s') :=
  ⟨(create_benchmark_hash_conflict fullState user2 qPublishedHash "bNew" (by decide)).1.mpr
      (by decide),
   (create_benchmark_hash_conflict fullState user1 qPrivateHash "bNew" (by decide)).1.mpr
      (by decide),
   (create_benchmark_hash_conflict fullState user1 qFreshHash "bNew" (by decide)).2.2
      (by decide)⟩

/-! ### Claim C4: user-deletion cascade -/

/-- C4: after delete_user(u) succeeds, every benchmark, artifact and
episode created by u whose publication set is empty or names only u's
personal group is deleted (a subsequent benchmark load returns
not_found), while every resource created by u that is published in a
non-personal scope survives, remains loadable by a caller with read
rights, and is still attributed to u. -/
theorem delete_user_cascade
    (s : ServerState) (caller : User) (u : String) (s' : ServerState)
    (hdel : delete_user s caller u = (200, s')) :
    (∀ b : Benchmark, b ∈ s.benchmarks → b.created_by = u →
       (∀ b' ∈ s.benchmarks, b'.id = b.id → b' = b) →
       (privateOnly u b.published_in = true →
          ∀ c, load_benchmark s' c b.id = .error .notFound) ∧
       (privateOnly u b.published_in = false →
          b ∈ s'.benchmarks ∧ b.created_by = u ∧
          (∀ c, hasRightOn s' c .BENCHMARK_READ b.created_by b.published_in = true →
            load_benchmark s' c b.id = .ok b))) ∧
    (∀ a : Artifact, a ∈ s.artifacts → a.created_by = u →
       (privateOnly u a.published_in = true → a ∉ s'.artifacts) ∧
       (privateOnly u a.published_in = false → a ∈ s'.artifacts ∧ a.created_by = u)) ∧
    (∀ e : EpisodeItem, e ∈ s.episodes → e.created_by = u →
       (privateOnly u e.published_in = true → e ∉ s'.episodes) ∧
       (privateOnly u e.published_in = false → e ∈ s'.episodes ∧ e.created_by = u)) := by
  have h200 : hasGlobalRight s caller .USER_DELETE = true := by
    by_contra hng
    rw [Bool.not_eq_true] at hng
    simp [delete_user, hng] at hdel
  unfold delete_user at hdel
  rw [if_neg (by simp [h200])] at hdel
  simp only [Prod.mk.injEq] at hdel
  obtain ⟨-, hs'⟩ := hdel
  subst hs'
  refine ⟨?_, ?_, ?_⟩
  · intro b hb hcb huniq
    constructor
    · intro hpriv c
      have hfind : (s.benchmarks.filter
          (fun x => !(x.created_by == u && privateOnly u x.published_in))).find?
          (fun x => x.id == b.id) = none := by
        rw [List.find?_eq_none]
        intro x hx hpx
        obtain ⟨hxs, hkeep⟩ := List.mem_filter.mp hx
        rw [huniq x hxs (beq_iff_eq.mp hpx)] at hkeep
        simp [hcb, hpriv] at hkeep
      exact load_benchmark_eq_notFound _ c b.id hfind
    · intro hpub
      have hbmem : b ∈ s.benchmarks.filter
          (fun x => !(x.created_by == u && privateOnly u x.published_in)) :=
        List.mem_filter.mpr ⟨hb, by simp [hcb, hpub]⟩
      refine ⟨hbmem, hcb, ?_⟩
      intro c hc
      have hfind : (s.benchmarks.filter
          (fun x => !(x.created_by == u && privateOnly u x.published_in))).find?
          (fun x => x.id == b.id) = some b :=
        find_eq_some_of_unique _ _ b hbmem (beq_self_eq_true _)
          (fun x hx hpx => huniq x (List.mem_filter.mp hx).1 (beq_iff_eq.mp hpx))
      exact load_benchmark_eq_ok _ c b.id b hfind hc
  · intro a ha hca
    constructor
    · intro hpriv hmem
      obtain ⟨-, hkeep⟩ := List.mem_filter.mp hmem
      simp [hca, hpriv] at hkeep
    · intro hpub
      exact ⟨List.mem_filter.mpr ⟨ha, by simp [hca, hpub]⟩, hca⟩
  · intro e he hce
    constructor
    · intro hpriv hmem
      obtain ⟨-, hkeep⟩ := List.mem_filter.mp hmem
      simp [hce, hpriv] at hkeep
    · intro hpub
      exact ⟨List.mem_filter.mpr ⟨he, by simp [hce, hpub]⟩, hce⟩

/-- Witness for C4: the admin deletes user 1 in the populated state; the
private benchmark, artifact and episode are gone (the benchmark load now
404s for everyone), the globally published ones survive, loadable and
still attributed to user 1. -/
theorem delete_user_cascade_witness :
    load_benchmark c4After user2 "b2" = .error .notFound ∧
    bmPublished ∈ c4After.benchmarks ∧
    load_benchmark c4After user2 "b1" = .ok bmPublished ∧
    artPrivate ∉ c4After.artifacts ∧ artPublished ∈ c4After.artifacts ∧
    epPrivate ∉ c4After.episodes ∧ epPublished ∈ c4After.episodes := by
  have H := delete_user_cascade fullState adminUser "test_user_1" c4After (by rfl)
  refine ⟨?_, ?_, ?_, ?_, ?_, ?_, ?_⟩
  · exact (H.1 bmPrivate (by decide) (by decide) (by decide)).1 (by decide) user2
  · exact ((H.1 bmPublished (by decide) (by decide) (by decide)).2 (by decide)).1
  · exact ((H.1 bmPublished (by decide) (by decide) (by decide)).2 (by decide)).2.2 user2
      (by decide)
  · exact (H.2.1 artPrivate (by decide) (by decide)).1 (by decide)
  · exact ((H.2.1 artPublished (by decide) (by decide)).2 (by decide)).1
  · exact (H.2.2 epPrivate (by decide) (by decide)).1 (by decide)
  · exact ((H.2.2 epPublished (by decide) (by decide)).2 (by decide)).1

/-! ### Claim C5: idempotent deletes -/

/-- C5: every delete operation (artifact, benchmark, episode, user, role,
group) is idempotent: deleting an id or name that does not exist reports
HTTP 200 for a caller who would otherwise have the right, and deleting
the same resource twice reports 200 both times (for roles: provided the
caller still holds the delete right afterwards, since deleting a role
can revoke the source of the caller's own authority). -/
theorem deletes_idempotent :
    (∀ s c id, s.artifacts.find? (fun a => a.id == id) = none →
       delete_artifact s c id = (200, s)) ∧
    (∀ s c id s₁, delete_artifact s c id = (200, s₁) →
       (delete_artifact s₁ c id).1 = 200) ∧
    (∀ s c id, s.benchmarks.find? (fun b => b.id == id) = none →
       delete_benchmark s c id = (200, s)) ∧
    (∀ s c id s₁, delete_benchmark s c id = (200, s₁) →
       (delete_benchmark s₁ c id).1 = 200) ∧
    (∀ s c id, s.episodes.find? (fun e => e.id == id) = none →
       delete_episode s c id = (200, s)) ∧
    (∀ s c id s₁, delete_episode s c id = (200, s₁) →
       (delete_episode s₁ c id).1 = 200) ∧
    (∀ s c n, hasGlobalRight s c .USER_DELETE = true → (delete_user s c n).1 = 200) ∧
    (∀ s c n s₁, delete_user s c n = (200, s₁) → (delete_user s₁ c n).1 = 200) ∧
    (∀ s c n, hasGlobalRight s c .ROLE_DELETE = true → (delete_role s c n).1 = 200) ∧
    (∀ s c n s₁, delete_role s c n = (200, s₁) →
       hasGlobalRight s₁ c .ROLE_DELETE = true → (delete_role s₁ c n).1 = 200) ∧
    (∀ s c n, hasGlobalRight s c .GROUP_DELETE = true → (delete_group s c n).1 = 200) ∧
    (∀ s c n s₁, delete_group s c n = (200, s₁) → (delete_group s₁ c n).1 = 200) := by
  refine ⟨delete_artifact_missing, ?_, delete_benchmark_missing, ?_,
    delete_episode_missing, ?_, delete_user_status_of_auth, ?_,
    delete_role_status_of_auth, ?_, delete_group_status_of_auth, ?_⟩
  · intro s c id s₁ hdel
    cases hfind : s.artifacts.find? (fun a => a.id == id) with
    | none =>
      rw [delete_artifact_missing s c id hfind] at hdel
      simp only [Prod.mk.injEq] at hdel
      obtain ⟨-, hs⟩ := hdel
      subst hs
      rw [delete_artifact_missing s c id hfind]
    | some a =>
      rw [delete_artifact_found s c id a hfind] at hdel
      split at hdel
      · simp only [Prod.mk.injEq] at hdel
        obtain ⟨-, hs⟩ := hdel
        subst hs
        have hfind2 : ({ s with artifacts := s.artifacts.filter (fun a2 => a2.id != id) }
            : ServerState).artifacts.find? (fun x => x.id == id) = none :=
          find_id_filter_ne_none (fun x => x.id) s.artifacts id
        rw [delete_artifact_missing _ c id hfind2]
      · have h43 : (403 : Nat) = 200 := congrArg Prod.fst hdel
        exact absurd h43 (by decide)
  · intro s c id s₁ hdel
    cases hfind : s.benchmarks.find? (fun b => b.id == id) with
    | none =>
      rw [delete_benchmark_missing s c id hfind] at hdel
      simp only [Prod.mk.injEq] at hdel
      obtain ⟨-, hs⟩ := hdel
      subst hs
      rw [delete_benchmark_missing s c id hfind]
    | some b =>
      rw [delete_benchmark_found s c id b hfind] at hdel
      split at hdel
      · simp only [Prod.mk.injEq] at hdel
        obtain ⟨-, hs⟩ := hdel
        subst hs
        have hfind2 : ({ s with
            benchmarks := s.benchmarks.filter (fun b2 => b2.id != id),
            episodes := s.episodes.filter (fun e => e.benchmark_id != id) }
            : ServerState).benchmarks.find? (fun x => x.id == id) = none :=
          find_id_filter_ne_none (fun x => x.id) s.benchmarks id
        rw [delete_benchmark_missing _ c id hfind2]
      · have h43 : (403 : Nat) = 200 := congrArg Prod.fst hdel
        exact absurd h43 (by decide)
  · intro s c id s₁ hdel
    cases hfind : s.episodes.find? (fun e => e.id == id) with
    | none =>
      rw [delete_episode_missing s c id hfind] at hdel
      simp only [Prod.mk.injEq] at hdel
      obtain ⟨-, hs⟩ := hdel
      subst hs
      rw [delete_episode_missing s c id hfind]
    | some e =>
      rw [delete_episode_found s c id e hfind] at hdel
      split at hdel
      · simp only [Prod.mk.injEq] at hdel
        obtain ⟨-, hs⟩ := hdel
        subst hs
        have hfind2 : ({ s with episodes := s.episodes.filter (fun e2 => e2.id != id) }
            : ServerState).episodes.find? (fun x => x.id == id) = none :=
          find_id_filter_ne_none (fun x => x.id) s.episodes id
        rw [delete_episode_missing _ c id hfind2]
      · have h43 : (403 : Nat) = 200 := congrArg Prod.fst hdel
        exact absurd h43 (by decide)
  · intro s c n s₁ hdel
    have h200 : hasGlobalRight s c .USER_DELETE = true := by
      by_contra hng
      rw [Bool.not_eq_true] at hng
      simp [delete_user, hng] at hdel
    unfold delete_user at hdel
    rw [if_neg (by simp [h200])] at hdel
    simp only [Prod.mk.injEq] at hdel
    obtain ⟨-, hs⟩ := hdel
    subst hs
    exact delete_user_status_of_auth _ c n h200
  · intro s c n s₁ hdel h₁
    exact delete_role_status_of_auth s₁ c n h₁
  · intro s c n s₁ hdel
    have h200 : hasGlobalRight s c .GROUP_DELETE = true := by
      by_contra hng
      rw [Bool.not_eq_true] at hng
      simp [delete_group, hng] at hdel
    unfold delete_group at hdel
    rw [if_neg (by simp [h200])] at hdel
    simp only [Prod.mk.injEq] at hdel
    obtain ⟨-, hs⟩ := hdel
    subst hs
    exact delete_group_status_of_auth _ c n h200

/-- Witness for C5: each delete kind evaluated twice (or on a missing id)
in the populated state, reporting 200 each time. -/
theorem deletes_idempotent_witness :
    delete_artifact fullState user1 "missing" = (200, fullState) ∧
    (delete_artifact (delete_artifact fullState adminUser "a2").2 adminUser "a2").1 = 200 ∧
    delete_benchmark fullState user1 "missing" = (200, fullState) ∧
    (delete_benchmark (delete_benchmark fullState adminUser "b2").2 adminUser "b2").1 = 200 ∧
    delete_episode fullState user1 "missing" = (200, fullState) ∧
    (delete_episode (delete_episode fullState adminUser "e2").2 adminUser "e2").1 = 200 ∧
    (delete_user fullState adminUser "nonexistent_user_12345").1 = 200 ∧
    (delete_user (delete_user fullState adminUser "test_user_1").2 adminUser
      "test_user_1").1 = 200 ∧
    (delete_role fullState adminUser "nonexistent_role").1 = 200 ∧
    (delete_role (delete_role c9State adminUser "test_role").2 adminUser "test_role").1 = 200 ∧
    (delete_group fullState adminUser "nonexistent_group").1 = 200 ∧
    (delete_group (delete_group fullState adminUser "test_user_2").2 adminUser
      "test_user_2").1 = 200 := by
  have H := deletes_idempotent
  exact ⟨H.1 fullState user1 "missing" (by decide),
    H.2.1 fullState adminUser "a2" _ (by rfl),
    H.2.2.1 fullState user1 "missing" (by decide),
    H.2.2.2.1 fullState adminUser "b2" _ (by rfl),
    H.2.2.2.2.1 fullState user1 "missing" (by decide),
    H.2.2.2.2.2.1 fullState adminUser "e2" _ (by rfl),
    H.2.2.2.2.2.2.1 fullState adminUser "nonexistent_user_12345" (by decide),
    H.2.2.2.2.2.2.2.1 fullState adminUser "test_user_1" _ (by rfl),
    H.2.2.2.2.2.2.2.2.1 fullState adminUser "nonexistent_role" (by decide),
    H.2.2.2.2.2.2.2.2.2.1 c9State adminUser "test_role" _ (by rfl) (by decide),
    H.2.2.2.2.2.2.2.2.2.2.1 fullState adminUser "nonexistent_group" (by decide),
    H.2.2.2.2.2.2.2.2.2.2.2 fullState adminUser "test_user_2" _ (by rfl)⟩

/-! ### Claim C6: rejection statuses for unauthenticated requests -/

/-- Counterexample to C6: a request to the rights-gated user-list
endpoint with a missing Authorization header is rejected with 403, not
401 — the request is processed as an unauthenticated guest whose rights
check fails, as the repository's newer test suite requires. -/
theorem missing_header_403_counterexample :
    handle_request baseState sampleTokens usersListEndpoint .missing = 403 := by
  decide

/-- C6 amended: a present bearer token the server does not recognize is
rejected with 401 on every endpoint; a missing Authorization header or a
non-Bearer scheme is rejected with 401 only on endpoints demanding
strict authentication (the artifacts router of the older suite), while
the remaining endpoints process such a request as an unauthenticated
guest and answer 403 when the guest lacks the required right; 403 is
likewise the answer for a valid token whose caller lacks the required
right. -/
theorem auth_rejection_statuses :
    (∀ s tokens (pol : EndpointPolicy) hdr, pol.strictAuth = true →
       (∀ t, hdr ≠ .bearer t) → handle_request s tokens pol hdr = 401) ∧
    (∀ s tokens (pol : EndpointPolicy) t, tokens.lookup t = none →
       handle_request s tokens pol (.bearer t) = 401) ∧
    (∀ s tokens (pol : EndpointPolicy) hdr, pol.strictAuth = false →
       (∀ t, hdr ≠ .bearer t) → checkRights pol s guestUser = false →
       handle_request s tokens pol hdr = 403) ∧
    (∀ s tokens (pol : EndpointPolicy) t uname u, tokens.lookup t = some uname →
       findUser s uname = some u → checkRights pol s u = false →
       handle_request s tokens pol (.bearer t) = 403) := by
  refine ⟨?_, ?_, ?_, ?_⟩
  · intro s tokens pol hdr hstrict hnb
    cases hdr with
    | bearer t => exact absurd rfl (hnb t)
    | missing => simp [handle_request, hstrict]
    | otherScheme sch t => simp [handle_request, hstrict]
  · intro s tokens pol t hl
    simp [handle_request, hl]
  · intro s tokens pol hdr hstrict hnb hcr
    cases hdr with
    | bearer t => exact absurd rfl (hnb t)
    | missing => simp [handle_request, hstrict, hcr]
    | otherScheme sch t => simp [handle_request, hstrict, hcr]
  · intro s tokens pol t uname u hl hu hcr
    simp [handle_request, hl, hu, hcr]

/-- Witness for the amended C6: concrete requests exercising all four
status rules. -/
theorem auth_rejection_statuses_witness :
    handle_request baseState sampleTokens
      (artifactDeleteEndpoint "test_user_1" ["test_user_1"]) .missing = 401 ∧
    handle_request baseState sampleTokens usersListEndpoint (.bearer "bogus") = 401 ∧
    handle_request baseState sampleTokens usersListEndpoint
      (.otherScheme "API-Token" "x") = 403 ∧
    handle_request baseState sampleTokens usersListEndpoint (.bearer "tok_user1") = 403 := by
  have H := auth_rejection_statuses
  refine ⟨?_, ?_, ?_, ?_⟩
  · exact H.1 baseState sampleTokens _ .missing (by decide) (fun t => by simp)
  · exact H.2.1 baseState sampleTokens usersListEndpoint "bogus" (by decide)
  · exact H.2.2.1 baseState sampleTokens usersListEndpoint _ (by decide)
      (fun t => by simp) (by decide)
  · exact H.2.2.2 baseState sampleTokens usersListEndpoint "tok_user1" "test_user_1" user1
      (by decide) (by decide) (by decide)

/-! ### Claim C8: group listing -/

/-- Counterexample to C8: a fresh standard user has a membership in their
personal group, and both the personal group and global exist as group
rows, yet the group-list operation answers the empty list — it contains
neither the personal group nor global, as the repository test
`test_list_groups_standard_user_empty` requires. -/
theorem list_groups_empty_counterexample :
    (user1.memberships.map (fun m => m.group)).contains "test_user_1" = true ∧
    user1Group ∈ baseState.groups ∧ globalGroup ∈ baseState.groups ∧
    list_groups baseState user1 = [] := by
  decide

/-- C8 amended: the group-list operation returns exactly the groups in
which the user holds a membership other than their personal group and
global; in particular a user whose memberships name only their personal
group and global receives an empty list. -/
theorem list_groups_members_only (s : ServerState) (caller : User) :
    (∀ g, g ∈ list_groups s caller ↔
       g ∈ s.groups ∧ (∃ m ∈ caller.memberships, m.group = g.name) ∧
       g.name ≠ caller.username ∧ g.name ≠ "global") ∧
    ((∀ m ∈ caller.memberships, m.group = caller.username ∨ m.group = "global") →
       list_groups s caller = []) := by
  constructor
  · intro g
    simp [list_groups, List.mem_filter, Bool.and_eq_true, List.contains_iff_exists_mem_beq,
      List.mem_map, bne_iff_ne, beq_iff_eq, and_assoc]
  · intro hmem
    rw [list_groups, List.filter_eq_nil_iff]
    intro g hg
    simp only [Bool.and_eq_true, bne_iff_ne, and_assoc]
    rintro ⟨hcont, hne1, hne2⟩
    obtain ⟨y, hy, hbeq⟩ := List.contains_iff_exists_mem_beq.mp hcont
    obtain ⟨m, hm, hmy⟩ := List.mem_map.mp hy
    have hgy : g.name = m.group := by rw [beq_iff_eq.mp hbeq, hmy]
    rcases hmem m hm with hpc | hgc
    · exact hne1 (by rw [hgy, hpc])
    · exact hne2 (by rw [hgy, hgc])

/-- Witness for the amended C8: the fresh user 1 receives the empty list,
and after an explicit membership in the test group the list contains it. -/
theorem list_groups_members_only_witness :
    list_groups baseState user1 = [] ∧
    testGroup ∈ list_groups c8GroupState user1WithGroup := by
  refine ⟨(list_groups_members_only baseState user1).2 (by decide), ?_⟩
  exact ((list_groups_members_only c8GroupState user1WithGroup).1 testGroup).mpr (by decide)

/-! ### Claim C9: role deletion cascades into memberships -/

/-- C9: after delete_role(r) succeeds, no user's membership in any group
still lists r among its roles; moreover, if every role name referenced
by a membership referred to an existing role before the deletion, the
same holds afterwards. -/
theorem delete_role_cascades
    (s : ServerState) (caller : User) (r : String) (s₁ : ServerState)
    (hdel : delete_role s caller r = (200, s₁)) :
    (∀ u ∈ s₁.users, ∀ m ∈ u.memberships, r ∉ m.roles) ∧
    ((∀ u ∈ s.users, ∀ m ∈ u.memberships, ∀ rn ∈ m.roles, ∃ ro ∈ s.roles, ro.role = rn) →
     (∀ u ∈ s₁.users, ∀ m ∈ u.memberships, ∀ rn ∈ m.roles,
        ∃ ro ∈ s₁.roles, ro.role = rn)) := by
  have h200 : hasGlobalRight s caller .ROLE_DELETE = true := by
    by_contra hng
    rw [Bool.not_eq_true] at hng
    simp [delete_role, hng] at hdel
  unfold delete_role at hdel
  rw [if_neg (by simp [h200])] at hdel
  simp only [Prod.mk.injEq] at hdel
  obtain ⟨-, hs⟩ := hdel
  subst hs
  constructor
  · intro u hu m hm hr
    obtain ⟨u0, hu0, rfl⟩ := List.mem_map.mp hu
    obtain ⟨m0, hm0, rfl⟩ := List.mem_map.mp hm
    have h2 := (List.mem_filter.mp hr).2
    simp [bne_iff_ne] at h2
  · intro hinv u hu m hm rn hrn
    obtain ⟨u0, hu0, rfl⟩ := List.mem_map.mp hu
    obtain ⟨m0, hm0, rfl⟩ := List.mem_map.mp hm
    obtain ⟨hrn0, hne⟩ := List.mem_filter.mp hrn
    obtain ⟨ro, hro, hroeq⟩ := hinv u0 hu0 m0 hm0 rn hrn0
    refine ⟨ro, List.mem_filter.mpr ⟨hro, ?_⟩, hroeq⟩
    have hner : rn ≠ r := by simpa [bne_iff_ne] using hne
    simp [bne_iff_ne, hroeq, hner]

/-- Witness for C9: the admin deletes the test role; the affected user's
global membership no longer lists it, and its remaining role name still
refers to a stored role. -/
theorem delete_role_cascades_witness :
    "test_role" ∉ ({ group := "global", roles := ["guest"] } : Membership).roles ∧
    ∃ ro ∈ c9After.roles, ro.role = "guest" := by
  have H := delete_role_cascades c9State adminUser "test_role" c9After (by rfl)
  constructor
  · exact H.1 roleUserAfter (by decide) { group := "global", roles := ["guest"] } (by decide)
  · exact H.2 (by decide) roleUserAfter (by decide)
      { group := "global", roles := ["guest"] } (by decide) "guest" (by decide)

/-! ### Claim C10: user responses carry no password data -/

/-- C10: the response bodies of user-create and user-list are independent
of every stored or submitted password: creating the same user with two
different passwords returns identical response bodies, and two states
whose users agree except on password hashes (and whose role tables
agree) produce identical user listings — the serialized user carries no
password or password-hash field. -/
theorem user_responses_password_independent :
    (∀ (s : ServerState) (caller : User) (username p1 p2 : String),
       (create_user s caller username p1).map (fun r => r.1) =
       (create_user s caller username p2).map (fun r => r.1)) ∧
    (∀ (s s' : ServerState) (caller : User), s'.roles = s.roles →
       s'.users.map toUserOut = s.users.map toUserOut →
       list_users s' caller = list_users s caller) := by
  constructor
  · intro s caller username p1 p2
    unfold create_user
    split
    · rfl
    · split
      · rfl
      · rfl
  · intro s s' caller hroles husers
    unfold list_users
    rw [hasGlobalRight_of_roles_eq s s' caller .USER_READ hroles, husers]

/-- Witness for C10: creating "new_user" with two different passwords
yields the same response body, and two full states differing only in
user 1's stored hash list users identically. -/
theorem user_responses_password_independent_witness :
    (create_user baseState adminUser "new_user" "pw_one").map (fun r => r.1) =
      (create_user baseState adminUser "new_user" "pw_two").map (fun r => r.1) ∧
    list_users fullStateAltPassword adminUser = list_users fullState adminUser := by
  have H := user_responses_password_independent
  exact ⟨H.1 baseState adminUser "new_user" "pw_one" "pw_two",
    H.2 fullState fullStateAltPassword adminUser (by rfl) (by decide)⟩

end PyTupli
